import Mathlib

/-!
# Verification of the taxi-prediction data pipeline

Shallow embedding of `src/taxipred/backend/data_cleaning.py`,
`src/taxipred/backend/data_processing.py` and the `/predict` handler of
`src/taxipred/backend/api.py`.

Conventions:
* pandas floats are modelled as `ℚ`; a NaN / missing cell is `Option.none`.
* A DataFrame is a `List` of row structures; `df.iterrows` with per-row
  `df.loc` writes is modelled as `List.map` of a per-row function (each row
  index is visited once and only that row is mutated, so rows are
  independent).
* Python exceptions are an explicit `PyError` value; total Python code is a
  total Lean function.
-/

namespace TaxiPred

/-- A raw trip record as read from the CSV (column names lowercased).
Every cell may be missing. -/
structure RawRow where
  trip_price : Option ℚ
  base_fare : Option ℚ
  per_km_rate : Option ℚ
  per_minute_rate : Option ℚ
  trip_distance_km : Option ℚ
  trip_duration_minutes : Option ℚ
  weather : Option String
  traffic_conditions : Option String
  time_of_day : Option String
  day_of_week : Option String
  passenger_count : Option ℚ
  deriving DecidableEq, Repr

/-- Value of a cell known to be present (`row[col]` after a `pd.notna` guard);
`0` is never read because every use sits under an `isSome` guard. -/
def cell (o : Option ℚ) : ℚ := o.getD 0

/-- `fill_missing_pricing_components`, per row
(data_cleaning.py lines 16-81).  The Python `for idx, row in df.iterrows()`
body is an `if/elif` chain; exactly one branch runs per row and each branch
fills at most the single field named in it. -/
def fillRowPricing (r : RawRow) : RawRow :=
  -- Calculate missing trip_price (if all other components present)
  if r.trip_price.isNone && r.base_fare.isSome && r.per_km_rate.isSome &&
      r.per_minute_rate.isSome && r.trip_distance_km.isSome && r.trip_duration_minutes.isSome then
    { r with trip_price := some (cell r.base_fare +
        (cell r.trip_distance_km * cell r.per_km_rate) +
        (cell r.trip_duration_minutes * cell r.per_minute_rate)) }
  -- Skip if trip_price is still missing
  else if r.trip_price.isNone then
    r
  -- Calculate missing trip_distance_km (reverse the formula)
  else if r.trip_distance_km.isNone && r.trip_price.isSome && r.base_fare.isSome &&
      r.per_km_rate.isSome && r.per_minute_rate.isSome && r.trip_duration_minutes.isSome then
    if cell r.per_km_rate ≠ 0 then  -- Avoid division by zero
      let calculated_distance := (cell r.trip_price - cell r.base_fare -
          (cell r.trip_duration_minutes * cell r.per_minute_rate)) / cell r.per_km_rate
      -- Only accept positive distances
      if calculated_distance > 0 then
        { r with trip_distance_km := some calculated_distance }
      else r
    else r
  -- Calculate missing trip_duration_minutes (reverse the formula)
  else if r.trip_duration_minutes.isNone && r.trip_price.isSome && r.base_fare.isSome &&
      r.per_km_rate.isSome && r.per_minute_rate.isSome && r.trip_distance_km.isSome then
    if cell r.per_minute_rate ≠ 0 then  -- Avoid division by zero
      let calculated_duration := (cell r.trip_price - cell r.base_fare -
          (cell r.trip_distance_km * cell r.per_km_rate)) / cell r.per_minute_rate
      -- Only accept positive durations
      if calculated_duration > 0 then
        { r with trip_duration_minutes := some calculated_duration }
      else r
    else r
  -- Calculate missing base_fare
  else if r.base_fare.isNone && r.trip_price.isSome && r.per_km_rate.isSome &&
      r.per_minute_rate.isSome && r.trip_distance_km.isSome && r.trip_duration_minutes.isSome then
    { r with base_fare := some (max 0 (cell r.trip_price -
        (cell r.trip_distance_km * cell r.per_km_rate) -
        (cell r.trip_duration_minutes * cell r.per_minute_rate))) }
  -- Calculate missing per_km_rate
  else if r.per_km_rate.isNone && r.trip_price.isSome && r.base_fare.isSome &&
      r.per_minute_rate.isSome && r.trip_distance_km.isSome && r.trip_duration_minutes.isSome then
    if cell r.trip_distance_km > 0 then
      { r with per_km_rate := some (max 0 ((cell r.trip_price - cell r.base_fare -
          (cell r.trip_duration_minutes * cell r.per_minute_rate)) / cell r.trip_distance_km)) }
    else r
  -- Calculate missing per_minute_rate
  else if r.per_minute_rate.isNone && r.trip_price.isSome && r.base_fare.isSome &&
      r.per_km_rate.isSome && r.trip_distance_km.isSome && r.trip_duration_minutes.isSome then
    if cell r.trip_duration_minutes > 0 then
      { r with per_minute_rate := some (max 0 ((cell r.trip_price - cell r.base_fare -
          (cell r.trip_distance_km * cell r.per_km_rate)) / cell r.trip_duration_minutes)) }
    else r
  else r

/-- Step 2 of `clean_dataset`: the Pricing Recovery Engine over a table. -/
def fillMissingPricingComponents (rows : List RawRow) : List RawRow :=
  rows.map fillRowPricing

/-- The Validity Filter predicate of Step 1 (data_cleaning.py lines 186-190):
keep a row iff each of `trip_price`, `trip_distance_km`,
`trip_duration_minutes` is either missing or strictly positive. -/
def validCore (r : RawRow) : Bool :=
  (r.trip_price.isNone || decide (0 < cell r.trip_price)) &&
  (r.trip_distance_km.isNone || decide (0 < cell r.trip_distance_km)) &&
  (r.trip_duration_minutes.isNone || decide (0 < cell r.trip_duration_minutes))

/-- Step 1 of `clean_dataset`: the Validity Filter. -/
def validityFilter (rows : List RawRow) : List RawRow :=
  rows.filter validCore

/-- The row after Step 3 dropped the leakage columns
`base_fare`, `per_km_rate`, `per_minute_rate`, `trip_duration_minutes`. -/
structure NoLeakRow where
  trip_price : Option ℚ
  trip_distance_km : Option ℚ
  weather : Option String
  traffic_conditions : Option String
  time_of_day : Option String
  day_of_week : Option String
  passenger_count : Option ℚ
  deriving DecidableEq, Repr

/-- Step 3: forget the pricing-component columns. -/
def toNoLeak (r : RawRow) : NoLeakRow :=
  { trip_price := r.trip_price
    trip_distance_km := r.trip_distance_km
    weather := r.weather
    traffic_conditions := r.traffic_conditions
    time_of_day := r.time_of_day
    day_of_week := r.day_of_week
    passenger_count := r.passenger_count }

/-- Number of occurrences of `a` in `xs`. -/
def countOcc (xs : List String) (a : String) : ℕ :=
  (xs.filter (· = a)).length

/-- `pd.Series.mode()[0]` over the non-null values of a string column: the
lexicographically least among the most frequent values, `none` when the
column has no non-null value (`mode().empty`). -/
def seriesMode (xs : List String) : Option String :=
  let maxCount := (xs.map (countOcc xs)).foldl max 0
  let modes := xs.filter (fun a => countOcc xs a = maxCount)
  modes.foldl (fun acc a =>
    match acc with
    | none => some a
    | some b => some (if a < b then a else b)) none

/-- `pd.Series.median()` over the non-null values of a numeric column:
middle element of the sorted values, or the mean of the two middle ones;
`none` (NaN) for an empty column. -/
def seriesMedian (xs : List ℚ) : Option ℚ :=
  match xs with
  | [] => none
  | _ =>
    let s := xs.insertionSort (· ≤ ·)
    let n := s.length
    if n % 2 = 1 then some (s.getD (n / 2) 0)
    else some ((s.getD (n / 2 - 1) 0 + s.getD (n / 2) 0) / 2)

/-- One iteration of the `categorical_defaults` loop of
`clean_categorical_features`: if the column has missing values, fill them
with the column mode (or the given default when the mode is empty). -/
def fillStringCol (rows : List NoLeakRow) (get : NoLeakRow → Option String)
    (set : NoLeakRow → String → NoLeakRow) (dflt : String) : List NoLeakRow :=
  let missing := (rows.filter (fun r => (get r).isNone)).length
  if missing > 0 then
    let fillValue := (seriesMode (rows.filterMap get)).getD dflt
    rows.map (fun r => if (get r).isNone then set r fillValue else r)
  else rows

/-- The `passenger_count` part of `clean_categorical_features`: fill missing
values with the column median (an all-null column has NaN median, so nulls
are left in place). -/
def fillPassengerCount (rows : List NoLeakRow) : List NoLeakRow :=
  let missing := (rows.filter (fun r => r.passenger_count.isNone)).length
  if missing > 0 then
    match seriesMedian (rows.filterMap (·.passenger_count)) with
    | some m => rows.map (fun r =>
        if r.passenger_count.isNone then { r with passenger_count := some m } else r)
    | none => rows
  else rows

/-- Step 4 of `clean_dataset`: `clean_categorical_features`
(data_cleaning.py lines 91-123). -/
def cleanCategoricalFeatures (rows : List NoLeakRow) : List NoLeakRow :=
  let r1 := fillStringCol rows (·.time_of_day)
    (fun r v => { r with time_of_day := some v }) "Afternoon"
  let r2 := fillStringCol r1 (·.day_of_week)
    (fun r v => { r with day_of_week := some v }) "Weekday"
  let r3 := fillStringCol r2 (·.traffic_conditions)
    (fun r v => { r with traffic_conditions := some v }) "Medium"
  let r4 := fillStringCol r3 (·.weather)
    (fun r v => { r with weather := some v }) "Clear"
  fillPassengerCount r4

/-- The `{'Clear': 1.0, 'Rain': 1.15, 'Snow': 1.3}` lookup table; `none`
for a key outside the table (pandas `.map` yields NaN there). -/
def weatherMap (w : String) : Option ℚ :=
  if w = "Clear" then some 1
  else if w = "Rain" then some (23 / 20)   -- 1.15
  else if w = "Snow" then some (13 / 10)   -- 1.3
  else none

/-- The `{'Low': 1.0, 'Medium': 1.1, 'High': 1.25}` lookup table; `none`
for a key outside the table. -/
def trafficMap (t : String) : Option ℚ :=
  if t = "Low" then some 1
  else if t = "Medium" then some (11 / 10)  -- 1.1
  else if t = "High" then some (5 / 4)      -- 1.25
  else none

/-- NaN-propagating product of two float cells. -/
def omul (a b : Option ℚ) : Option ℚ :=
  match a, b with
  | some x, some y => some (x * y)
  | _, _ => none

/-- A row after Step 5 added the engineered features.  The flag columns are
`astype(int)` results, hence total `ℕ` values. -/
structure FeatRow where
  trip_price : Option ℚ
  trip_distance_km : Option ℚ
  weather : Option String
  traffic_conditions : Option String
  time_of_day : Option String
  day_of_week : Option String
  passenger_count : Option ℚ
  weather_impact : Option ℚ
  traffic_multiplier : Option ℚ
  is_morning_rush : ℕ
  is_evening_rush : ℕ
  is_peak_hours : ℕ
  is_weekend : ℕ
  high_impact_trip : ℕ
  condition_score : Option ℚ
  distance_x_conditions : Option ℚ
  deriving DecidableEq, Repr

/-- `engineer_features`, per row (data_cleaning.py lines 125-151).
A pandas `==` comparison against a NaN cell is `False`, matching the
`Option` equality used here; `.map` on an unknown key yields NaN (`none`). -/
def engineerRow (r : NoLeakRow) : FeatRow :=
  let weather_impact := r.weather.bind weatherMap
  let traffic_multiplier := r.traffic_conditions.bind trafficMap
  let is_morning_rush : ℕ := if r.time_of_day = some "Morning" then 1 else 0
  let is_evening_rush : ℕ := if r.time_of_day = some "Evening" then 1 else 0
  let is_peak_hours : ℕ := is_morning_rush ||| is_evening_rush
  let is_weekend : ℕ := if r.day_of_week = some "Weekend" then 1 else 0
  let high_impact_trip : ℕ :=
    if r.weather = some "Snow" ∨ r.traffic_conditions = some "High" then 1 else 0
  let condition_score := omul weather_impact traffic_multiplier
  { trip_price := r.trip_price
    trip_distance_km := r.trip_distance_km
    weather := r.weather
    traffic_conditions := r.traffic_conditions
    time_of_day := r.time_of_day
    day_of_week := r.day_of_week
    passenger_count := r.passenger_count
    weather_impact := weather_impact
    traffic_multiplier := traffic_multiplier
    is_morning_rush := is_morning_rush
    is_evening_rush := is_evening_rush
    is_peak_hours := is_peak_hours
    is_weekend := is_weekend
    high_impact_trip := high_impact_trip
    condition_score := condition_score
    distance_x_conditions := omul r.trip_distance_km condition_score }

/-- The final cleaned row, after Step 7 dropped the original categorical
columns `time_of_day`, `day_of_week`, `traffic_conditions`, `weather`. -/
structure FinalRow where
  trip_price : Option ℚ
  trip_distance_km : Option ℚ
  passenger_count : Option ℚ
  weather_impact : Option ℚ
  traffic_multiplier : Option ℚ
  is_morning_rush : ℕ
  is_evening_rush : ℕ
  is_peak_hours : ℕ
  is_weekend : ℕ
  high_impact_trip : ℕ
  condition_score : Option ℚ
  distance_x_conditions : Option ℚ
  deriving DecidableEq, Repr

/-- Step 7: forget the original categorical columns. -/
def toFinal (r : FeatRow) : FinalRow :=
  { trip_price := r.trip_price
    trip_distance_km := r.trip_distance_km
    passenger_count := r.passenger_count
    weather_impact := r.weather_impact
    traffic_multiplier := r.traffic_multiplier
    is_morning_rush := r.is_morning_rush
    is_evening_rush := r.is_evening_rush
    is_peak_hours := r.is_peak_hours
    is_weekend := r.is_weekend
    high_impact_trip := r.high_impact_trip
    condition_score := r.condition_score
    distance_x_conditions := r.distance_x_conditions }

/-- `clean_dataset` at row level (data_cleaning.py lines 153-296):
Step 1 validity filter, Step 2 pricing recovery, Step 3 leakage-column drop,
Step 4 categorical fill, Step 5 feature engineering, Step 6 `dropna` on the
critical columns `trip_distance_km` and `trip_price`, Step 7 categorical
column drop.  (The remaining steps only print or save.) -/
def cleanRows (rows : List RawRow) : List FinalRow :=
  let s1 := validityFilter rows
  let s2 := fillMissingPricingComponents s1
  let s3 := s2.map toNoLeak
  let s4 := cleanCategoricalFeatures s3
  let s5 := s4.map engineerRow
  let s6 := s5.filter (fun r => r.trip_distance_km.isSome && r.trip_price.isSome)
  s6.map toFinal

/-! ## Inference-time feature engineering (data_processing.py) -/

/-- A Python exception escaping `TaxiData.predict_price`. -/
inductive PyError where
  | valueError
  | runtimeError
  | keyError
  deriving DecidableEq, Repr

/-- The hour-of-day binning of `_engineer_features_from_input`
(data_processing.py lines 71-78). -/
def timeOfDayFromHour (hour : ℕ) : String :=
  if 6 ≤ hour ∧ hour < 12 then "Morning"
  else if 12 ≤ hour ∧ hour < 18 then "Afternoon"
  else if 18 ≤ hour ∧ hour < 24 then "Evening"
  else "Night"

/-- The feature dict returned by `_engineer_features_from_input`. -/
structure InferFeatures where
  trip_distance_km : ℚ
  passenger_count : ℚ
  weather_impact : ℚ
  traffic_multiplier : ℚ
  is_morning_rush : ℕ
  is_evening_rush : ℕ
  is_peak_hours : ℕ
  is_weekend : ℕ
  high_impact_trip : ℕ
  condition_score : ℚ
  distance_x_conditions : ℚ
  deriving DecidableEq, Repr

/-- `TaxiData._engineer_features_from_input`
(data_processing.py lines 49-107).  The `pickup_datetime` is represented by
its `hour` (0-23) and `weekday()` index (0-6); the `{...}[weather]` and
`{...}[traffic_conditions]` dict accesses raise `KeyError` on an unknown
key. -/
def engineerFeaturesFromInput (trip_distance_km passenger_count : ℚ)
    (hour weekday : ℕ) (weather traffic_conditions : String) :
    Except PyError InferFeatures :=
  let time_of_day := timeOfDayFromHour hour
  let is_morning_rush : ℕ := if time_of_day = "Morning" then 1 else 0
  let is_evening_rush : ℕ := if time_of_day = "Evening" then 1 else 0
  let is_peak_hours : ℕ := if is_morning_rush ≠ 0 ∨ is_evening_rush ≠ 0 then 1 else 0
  let is_weekend : ℕ := if weekday > 4 then 1 else 0
  match weatherMap weather with
  | none => .error .keyError
  | some weather_impact =>
    match trafficMap traffic_conditions with
    | none => .error .keyError
    | some traffic_multiplier =>
      let condition_score := weather_impact * traffic_multiplier
      let distance_x_conditions := trip_distance_km * condition_score
      let high_impact_trip : ℕ :=
        if weather = "Snow" ∨ traffic_conditions = "High" then 1 else 0
      .ok
        { trip_distance_km := trip_distance_km
          passenger_count := passenger_count
          weather_impact := weather_impact
          traffic_multiplier := traffic_multiplier
          is_morning_rush := is_morning_rush
          is_evening_rush := is_evening_rush
          is_peak_hours := is_peak_hours
          is_weekend := is_weekend
          high_impact_trip := high_impact_trip
          condition_score := condition_score
          distance_x_conditions := distance_x_conditions }

/-- `TaxiData.predict_price` up to the feature dict
(data_processing.py lines 109-137): `RuntimeError` when no model is loaded,
`ValueError` for a non-positive distance, then feature engineering.  The
call into the joblib model artifact is external to the repository, so the
engineered features stand for a completed prediction. -/
def predictPrice (modelLoaded : Bool) (trip_distance_km passenger_count : ℚ)
    (hour weekday : ℕ) (weather traffic_conditions : String) :
    Except PyError InferFeatures :=
  if !modelLoaded then .error .runtimeError
  else if trip_distance_km ≤ 0 then .error .valueError
  else engineerFeaturesFromInput trip_distance_km passenger_count hour weekday
    weather traffic_conditions

/-- The `/predict` handler `predict_fare` (api.py lines 52-83) reduced to
the HTTP status it answers: `except ValueError` maps to 400,
`except RuntimeError` to 500, and every other exception — `KeyError`
included — falls into `except Exception` and maps to 500. -/
def predictFareStatus (modelLoaded : Bool) (trip_distance_km passenger_count : ℚ)
    (hour weekday : ℕ) (weather traffic_conditions : String) : ℕ :=
  match predictPrice modelLoaded trip_distance_km passenger_count hour weekday
      weather traffic_conditions with
  | .ok _ => 200
  | .error .valueError => 400
  | .error .runtimeError => 500
  | .error .keyError => 500

/-! ## Column-level view of `clean_dataset` (for the no-leakage invariant) -/

/-- The columns dropped by Step 3 of `clean_dataset`
(`columns_to_drop`, data_cleaning.py line 201). -/
def pricingComponentCols : List String :=
  ["base_fare", "per_km_rate", "per_minute_rate", "trip_duration_minutes"]

/-- The original categorical columns dropped by Step 7
(`categorical_to_drop`, data_cleaning.py line 225). -/
def categoricalCols : List String :=
  ["time_of_day", "day_of_week", "traffic_conditions", "weather"]

/-- The columns Step 5 (`engineer_features`) assigns. -/
def engineeredCols : List String :=
  ["weather_impact", "traffic_multiplier", "is_morning_rush", "is_evening_rush",
   "is_peak_hours", "is_weekend", "high_impact_trip", "condition_score",
   "distance_x_conditions"]

/-- `str.lower()` on a column name (`df.columns.str.lower()`, line 174):
lowercase every character. -/
def lowerName (s : String) : String :=
  String.mk (s.data.map Char.toLower)

/-- `df.drop(columns=toDrop)`: raises `KeyError` when a listed column is
absent, otherwise removes the listed columns. -/
def dropColumnsStrict (cols toDrop : List String) : Except String (List String) :=
  if toDrop.all (fun c => cols.contains c) then
    .ok (cols.filter (fun c => !(toDrop.contains c)))
  else .error "KeyError"

/-- `df[c] = ...` for a fresh or existing column: an existing column keeps
its position, a fresh one is appended. -/
def addColumn (cols : List String) (c : String) : List String :=
  if cols.contains c then cols else cols ++ [c]

/-- `clean_dataset` restricted to the evolution of the column set:
lowercasing (line 174), the Step 3 strict drop, the Step 5 column
assignments, and the Step 7 drop of whichever original categoricals exist
(lines 224-230).  Row-only steps do not change the columns. -/
def cleanDatasetColumns (cols : List String) : Except String (List String) :=
  let lowered := cols.map lowerName
  match dropColumnsStrict lowered pricingComponentCols with
  | .error e => .error e
  | .ok noLeak =>
    let engineered := engineeredCols.foldl addColumn noLeak
    let existing := categoricalCols.filter (fun c => engineered.contains c)
    .ok (engineered.filter (fun c => !(existing.contains c)))

/-- A representative raw header with the RawTripRecord columns
(case-insensitive per the input contract; line 174 lowercases them). -/
def rawColumns : List String :=
  ["Trip_Distance_km", "Time_of_Day", "Day_of_Week", "Passenger_Count",
   "Traffic_Conditions", "Weather", "Base_Fare", "Per_Km_Rate",
   "Per_Minute_Rate", "Trip_Duration_Minutes", "Trip_Price"]

/-! ## Derived quantities used by the statements -/

/-- Number of missing cells among the six pricing fields of a row. -/
def pricingNulls (r : RawRow) : ℕ :=
  (if r.trip_price = none then 1 else 0) +
  (if r.base_fare = none then 1 else 0) +
  (if r.per_km_rate = none then 1 else 0) +
  (if r.per_minute_rate = none then 1 else 0) +
  (if r.trip_distance_km = none then 1 else 0) +
  (if r.trip_duration_minutes = none then 1 else 0)

/-- Number of pricing fields that are missing in `r` and present in `r'`:
the fields the recovery engine filled. -/
def newlyFilled (r r' : RawRow) : ℕ :=
  (if r.trip_price = none ∧ r'.trip_price ≠ none then 1 else 0) +
  (if r.base_fare = none ∧ r'.base_fare ≠ none then 1 else 0) +
  (if r.per_km_rate = none ∧ r'.per_km_rate ≠ none then 1 else 0) +
  (if r.per_minute_rate = none ∧ r'.per_minute_rate ≠ none then 1 else 0) +
  (if r.trip_distance_km = none ∧ r'.trip_distance_km ≠ none then 1 else 0) +
  (if r.trip_duration_minutes = none ∧ r'.trip_duration_minutes ≠ none then 1 else 0)

/-- Signed error of the forward fare formula on a row whose six pricing
cells are all present: `base_fare + distance*per_km_rate +
duration*per_minute_rate - trip_price`. -/
def forwardGap (r : RawRow) : ℚ :=
  cell r.base_fare + cell r.trip_distance_km * cell r.per_km_rate +
    cell r.trip_duration_minutes * cell r.per_minute_rate - cell r.trip_price

/-- The recovery engine wrote a clamped `max(0, ·)` value `0` into one of
the three clampable fields that was missing in the input. -/
def clampedFill (r r' : RawRow) : Prop :=
  (r.base_fare = none ∧ r'.base_fare = some 0) ∨
  (r.per_km_rate = none ∧ r'.per_km_rate = some 0) ∨
  (r.per_minute_rate = none ∧ r'.per_minute_rate = some 0)

/-- The worked example row of the spec (missing `trip_price`, rainy Monday
morning, light traffic). -/
def exampleRowC8 : RawRow :=
  { trip_price := none, base_fare := some 3, per_km_rate := some (3 / 2),
    per_minute_rate := some (1 / 5), trip_distance_km := some 10,
    trip_duration_minutes := some 5, weather := some "Rain",
    traffic_conditions := some "Low", time_of_day := some "Morning",
    day_of_week := some "Weekday", passenger_count := some 2 }

/-- A complete row except for a weather label outside the lookup table. -/
def fogRow : RawRow :=
  { trip_price := some 10, base_fare := some 2, per_km_rate := some 1,
    per_minute_rate := some 1, trip_distance_km := some 4,
    trip_duration_minutes := some 4, weather := some "Fog",
    traffic_conditions := some "Low", time_of_day := some "Morning",
    day_of_week := some "Weekday", passenger_count := some 1 }

/-- A row whose only missing pricing field is `base_fare`, with
`trip_price` smaller than the distance charge, so the recovered base fare
is negative before the `max(0, ·)` clamp. -/
def clampRow : RawRow :=
  { trip_price := some 1, base_fare := none, per_km_rate := some 1,
    per_minute_rate := some 0, trip_distance_km := some 5,
    trip_duration_minutes := some 7, weather := none,
    traffic_conditions := none, time_of_day := none, day_of_week := none,
    passenger_count := none }

/-- A row with zero `per_km_rate` and missing `trip_distance_km`. -/
def zeroKmRateRow : RawRow :=
  { trip_price := some 10, base_fare := some 2, per_km_rate := some 0,
    per_minute_rate := some 1, trip_distance_km := none,
    trip_duration_minutes := some 5, weather := none,
    traffic_conditions := none, time_of_day := none, day_of_week := none,
    passenger_count := none }

/-- A row with zero `per_minute_rate` and missing `trip_duration_minutes`. -/
def zeroMinRateRow : RawRow :=
  { trip_price := some 10, base_fare := some 2, per_km_rate := some 1,
    per_minute_rate := some 0, trip_distance_km := some 5,
    trip_duration_minutes := none, weather := none,
    traffic_conditions := none, time_of_day := none, day_of_week := none,
    passenger_count := none }

/-- A row with `trip_price = -5` (the dropped-row example of the spec). -/
def negPriceRow : RawRow :=
  { trip_price := some (-5), base_fare := some 3, per_km_rate := some 1,
    per_minute_rate := some 1, trip_distance_km := some 2,
    trip_duration_minutes := some 2, weather := some "Clear",
    traffic_conditions := some "Low", time_of_day := some "Night",
    day_of_week := some "Weekday", passenger_count := some 1 }

/-- The input row of the categorical-label (bulk) path, with the given
pricing, distance, passenger and label values. -/
def bulkRow (p : Option ℚ) (d pc : ℚ) (w t tod dow : String) : NoLeakRow :=
  { trip_price := p
    trip_distance_km := some d
    weather := some w
    traffic_conditions := some t
    time_of_day := some tod
    day_of_week := some dow
    passenger_count := some pc }

/-! ## Claims -/

/-- C8: on the spec's worked example row (trip_price missing, base 3.0,
1.5/km, 0.2/min, 10 km, 5 min, Rain, Low traffic, Morning, Weekday,
2 passengers) the pipeline recovers `trip_price = 19.0` and engineers
`weather_impact = 1.15`, `traffic_multiplier = 1.0`,
`condition_score = 1.15`, `distance_x_conditions = 11.5`,
`is_morning_rush = 1`, `is_peak_hours = 1`, `is_weekend = 0`,
`high_impact_trip = 0`. -/
theorem claim_C8 :
    cleanRows [exampleRowC8] =
      [{ trip_price := some 19, trip_distance_km := some 10,
         passenger_count := some 2, weather_impact := some (23 / 20),
         traffic_multiplier := some 1, is_morning_rush := 1,
         is_evening_rush := 0, is_peak_hours := 1, is_weekend := 0,
         high_impact_trip := 0, condition_score := some (23 / 20),
         distance_x_conditions := some (23 / 2) }] := by
  norm_num [cleanRows, validityFilter, validCore, fillMissingPricingComponents,
    fillRowPricing, cell, toNoLeak, cleanCategoricalFeatures, fillStringCol,
    fillPassengerCount, engineerRow, weatherMap, trafficMap, omul, toFinal,
    exampleRowC8]
  simp
  norm_num

/-- C9 (divergence witness): a prediction request with a loaded model, a
positive distance and a weather label outside the lookup table answers
HTTP 500, not 400 — the `KeyError` from the dict access is caught by the
generic `except Exception` arm of `predict_fare`, not by the
`except ValueError` arm that produces 400. -/
theorem claim_C9 : predictFareStatus true 5 2 8 2 "Fog" "Low" = 500 := by
  simp [predictFareStatus, predictPrice, engineerFeaturesFromInput,
    timeOfDayFromHour, weatherMap, trafficMap]
  norm_num

/-- C3 (counterexample): a complete row whose weather label `"Fog"` lies
outside the lookup table flows through the whole bulk-cleaning pipeline
without any error and ends in the final table with a silently missing
`weather_impact` (and hence missing `condition_score` and
`distance_x_conditions`) — `pandas.Series.map` yields NaN for an unknown
key; no `UnknownCategory` failure exists at the cleaning stage. -/
theorem claim_C3_counterexample :
    cleanRows [fogRow] =
      [{ trip_price := some 10, trip_distance_km := some 4,
         passenger_count := some 1, weather_impact := none,
         traffic_multiplier := some 1, is_morning_rush := 1,
         is_evening_rush := 0, is_peak_hours := 1, is_weekend := 0,
         high_impact_trip := 0, condition_score := none,
         distance_x_conditions := none }] := by
  norm_num [cleanRows, validityFilter, validCore, fillMissingPricingComponents,
    fillRowPricing, cell, toNoLeak, cleanCategoricalFeatures, fillStringCol,
    fillPassengerCount, engineerRow, weatherMap, trafficMap, omul, toFinal,
    fogRow]
  simp

/-- C3 (amended): during bulk cleaning, a row reaching the Feature
Engineer with a weather value outside {Clear, Rain, Snow} (or a
traffic_conditions value outside {Low, Medium, High}) does not fail; the
engineer silently assigns a missing (NaN) `weather_impact`
(resp. `traffic_multiplier`). -/
theorem claim_C3 :
    (∀ (r : NoLeakRow) (w : String), r.weather = some w →
      w ≠ "Clear" → w ≠ "Rain" → w ≠ "Snow" →
      (engineerRow r).weather_impact = none) ∧
    (∀ (r : NoLeakRow) (t : String), r.traffic_conditions = some t →
      t ≠ "Low" → t ≠ "Medium" → t ≠ "High" →
      (engineerRow r).traffic_multiplier = none) := by
  constructor
  · intro r w hw h1 h2 h3
    simp [engineerRow, hw, weatherMap, h1, h2, h3]
  · intro r t ht h1 h2 h3
    simp [engineerRow, ht, trafficMap, h1, h2, h3]

/-- Witness for C3 (amended) at the concrete labels `"Fog"` / `"Gridlock"`. -/
theorem claim_C3_witness :
    (engineerRow (toNoLeak fogRow)).weather_impact = none ∧
    (engineerRow
      { toNoLeak fogRow with traffic_conditions := some "Gridlock" }).traffic_multiplier = none :=
  ⟨claim_C3.1 (toNoLeak fogRow) "Fog" rfl (by decide) (by decide) (by decide),
   claim_C3.2 { toNoLeak fogRow with traffic_conditions := some "Gridlock" }
     "Gridlock" rfl (by decide) (by decide) (by decide)⟩

/-- Unfolding of the Validity Filter predicate. -/
theorem validCore_iff (r : RawRow) :
    validCore r = true ↔
      (r.trip_price = none ∨ ∃ v, r.trip_price = some v ∧ 0 < v) ∧
      (r.trip_distance_km = none ∨ ∃ v, r.trip_distance_km = some v ∧ 0 < v) ∧
      (r.trip_duration_minutes = none ∨ ∃ v, r.trip_duration_minutes = some v ∧ 0 < v) := by
  obtain ⟨tp, bf, km, pm, dist, dur, w, tc, tod, dow, pc⟩ := r
  cases tp <;> cases dist <;> cases dur <;> simp [validCore, cell, and_assoc]

/-- C4: the Validity Filter keeps exactly the rows whose `trip_price`,
`trip_distance_km` and `trip_duration_minutes` are each missing or
strictly positive, keeps every such row unchanged (the output rows are the
input rows themselves), raises nothing (it is a total function), and in
particular removes every row with `trip_price = -5`. -/
theorem claim_C4 :
    (∀ (rows : List RawRow) (r : RawRow),
      r ∈ validityFilter rows ↔ r ∈ rows ∧
        (r.trip_price = none ∨ ∃ v, r.trip_price = some v ∧ 0 < v) ∧
        (r.trip_distance_km = none ∨ ∃ v, r.trip_distance_km = some v ∧ 0 < v) ∧
        (r.trip_duration_minutes = none ∨ ∃ v, r.trip_duration_minutes = some v ∧ 0 < v)) ∧
    (∀ (rows : List RawRow) (r : RawRow),
      r.trip_price = some (-5) → r ∉ validityFilter rows) := by
  have hmem : ∀ (rows : List RawRow) (r : RawRow),
      r ∈ validityFilter rows ↔ r ∈ rows ∧
        (r.trip_price = none ∨ ∃ v, r.trip_price = some v ∧ 0 < v) ∧
        (r.trip_distance_km = none ∨ ∃ v, r.trip_distance_km = some v ∧ 0 < v) ∧
        (r.trip_duration_minutes = none ∨ ∃ v, r.trip_duration_minutes = some v ∧ 0 < v) := by
    intro rows r
    rw [validityFilter, List.mem_filter, validCore_iff]
  refine ⟨hmem, fun rows r hneg hr => ?_⟩
  rcases (hmem rows r).mp hr with ⟨-, hp, -, -⟩
  rcases hp with hp | ⟨v, hv, hvpos⟩
  · exact (Option.some_ne_none _ (hneg ▸ hp)).elim
  · rw [hneg] at hv
    rw [Option.some.injEq] at hv
    subst hv
    norm_num at hvpos

/-- Witness for C4 at a concrete table: the `trip_price = -5` row is
dropped even though all its other fields are valid, while a fully valid
row is kept. -/
theorem claim_C4_witness :
    negPriceRow ∉ validityFilter [negPriceRow, fogRow] ∧
    fogRow ∈ validityFilter [negPriceRow, fogRow] :=
  ⟨claim_C4.2 [negPriceRow, fogRow] negPriceRow rfl,
   (claim_C4.1 [negPriceRow, fogRow] fogRow).mpr
     ⟨by simp, Or.inr ⟨10, rfl, by norm_num⟩, Or.inr ⟨4, rfl, by norm_num⟩,
      Or.inr ⟨4, rfl, by norm_num⟩⟩⟩

/-- C6: a row whose `per_km_rate` is zero and whose `trip_distance_km` is
missing (everything else present) passes the Pricing Recovery Engine
unchanged — the division-by-zero guard leaves `trip_distance_km` null and
no exception is raised (the per-row function is total and returns the row
itself); symmetrically for `per_minute_rate = 0` with missing
`trip_duration_minutes`. -/
theorem claim_C6 :
    (∀ r : RawRow, r.per_km_rate = some 0 → r.trip_distance_km = none →
      r.trip_price.isSome → r.base_fare.isSome → r.per_minute_rate.isSome →
      r.trip_duration_minutes.isSome →
      fillRowPricing r = r ∧ (fillRowPricing r).trip_distance_km = none) ∧
    (∀ r : RawRow, r.per_minute_rate = some 0 → r.trip_duration_minutes = none →
      r.trip_price.isSome → r.base_fare.isSome → r.per_km_rate.isSome →
      r.trip_distance_km.isSome →
      fillRowPricing r = r ∧ (fillRowPricing r).trip_duration_minutes = none) := by
  constructor
  · intro r h0 hd hp hb hm ht
    obtain ⟨p, hp⟩ := Option.isSome_iff_exists.mp hp
    obtain ⟨b, hb⟩ := Option.isSome_iff_exists.mp hb
    obtain ⟨m, hm⟩ := Option.isSome_iff_exists.mp hm
    obtain ⟨t, ht⟩ := Option.isSome_iff_exists.mp ht
    have : fillRowPricing r = r := by
      rw [fillRowPricing]
      simp [h0, hd, hp, hb, hm, ht, cell]
    exact ⟨this, by rw [this, hd]⟩
  · intro r h0 hd hp hb hk hdist
    obtain ⟨p, hp⟩ := Option.isSome_iff_exists.mp hp
    obtain ⟨b, hb⟩ := Option.isSome_iff_exists.mp hb
    obtain ⟨k, hk⟩ := Option.isSome_iff_exists.mp hk
    obtain ⟨d, hdist⟩ := Option.isSome_iff_exists.mp hdist
    have : fillRowPricing r = r := by
      rw [fillRowPricing]
      simp [h0, hd, hp, hb, hk, hdist, cell]
    exact ⟨this, by rw [this, hd]⟩

/-- Witness for C6: concrete rows with a zero rate and the matching
missing operand are returned untouched. -/
theorem claim_C6_witness :
    (fillRowPricing zeroKmRateRow).trip_distance_km = none ∧
    (fillRowPricing zeroMinRateRow).trip_duration_minutes = none :=
  ⟨(claim_C6.1 zeroKmRateRow rfl rfl rfl rfl rfl rfl).2,
   (claim_C6.2 zeroMinRateRow rfl rfl rfl rfl rfl rfl).2⟩

/-- C5: the Pricing Recovery Engine fills at most one field per row: the
number of pricing fields that are null before and non-null after is 0 or 1
(the `if/elif` chain runs exactly one branch, and each branch writes at
most one field). -/
theorem fillRowPricing_shape (r : RawRow) :
    fillRowPricing r = r ∨
    (∃ v, fillRowPricing r = { r with trip_price := some v }) ∨
    (∃ v, fillRowPricing r = { r with trip_distance_km := some v }) ∨
    (∃ v, fillRowPricing r = { r with trip_duration_minutes := some v }) ∨
    (∃ v, fillRowPricing r = { r with base_fare := some v }) ∨
    (∃ v, fillRowPricing r = { r with per_km_rate := some v }) ∨
    (∃ v, fillRowPricing r = { r with per_minute_rate := some v }) := by
  obtain ⟨r', hr⟩ : ∃ x, fillRowPricing r = x := ⟨_, rfl⟩
  rw [hr]
  rw [fillRowPricing] at hr
  repeat' split at hr
  all_goals try (dsimp only at hr)
  all_goals repeat' split at hr
  all_goals subst hr
  all_goals first
    | exact Or.inl rfl
    | exact Or.inr (Or.inl ⟨_, rfl⟩)
    | exact Or.inr (Or.inr (Or.inl ⟨_, rfl⟩))
    | exact Or.inr (Or.inr (Or.inr (Or.inl ⟨_, rfl⟩)))
    | exact Or.inr (Or.inr (Or.inr (Or.inr (Or.inl ⟨_, rfl⟩))))
    | exact Or.inr (Or.inr (Or.inr (Or.inr (Or.inr (Or.inl ⟨_, rfl⟩)))))
    | exact Or.inr (Or.inr (Or.inr (Or.inr (Or.inr (Or.inr ⟨_, rfl⟩)))))

theorem claim_C5 (r : RawRow) : newlyFilled r (fillRowPricing r) ≤ 1 := by
  rcases fillRowPricing_shape r with h | ⟨v, h⟩ | ⟨v, h⟩ | ⟨v, h⟩ | ⟨v, h⟩ | ⟨v, h⟩ | ⟨v, h⟩ <;>
    rw [h] <;> simp [newlyFilled] <;> try (split <;> omega)

/-- C10: the Pricing Recovery Engine never overwrites a present value and
never touches a non-pricing column: every pricing field that is `some v`
in the input keeps exactly the value `v`, and the five non-pricing fields
are returned unchanged. -/
theorem fill_frame_weather (r : RawRow) : (fillRowPricing r).weather = r.weather := by
  rw [fillRowPricing]
  repeat' split
  all_goals try simp_all
  all_goals repeat' split
  all_goals try simp_all

theorem fill_frame_traffic (r : RawRow) :
    (fillRowPricing r).traffic_conditions = r.traffic_conditions := by
  rw [fillRowPricing]
  repeat' split
  all_goals try simp_all
  all_goals repeat' split
  all_goals try simp_all

theorem fill_frame_time_of_day (r : RawRow) :
    (fillRowPricing r).time_of_day = r.time_of_day := by
  rw [fillRowPricing]
  repeat' split
  all_goals try simp_all
  all_goals repeat' split
  all_goals try simp_all

theorem fill_frame_day_of_week (r : RawRow) :
    (fillRowPricing r).day_of_week = r.day_of_week := by
  rw [fillRowPricing]
  repeat' split
  all_goals try simp_all
  all_goals repeat' split
  all_goals try simp_all

theorem fill_frame_passenger_count (r : RawRow) :
    (fillRowPricing r).passenger_count = r.passenger_count := by
  rw [fillRowPricing]
  repeat' split
  all_goals try simp_all
  all_goals repeat' split
  all_goals try simp_all

theorem fill_keeps_trip_price (r : RawRow) (v : ℚ) (h : r.trip_price = some v) :
    (fillRowPricing r).trip_price = some v := by
  rw [fillRowPricing]
  repeat' split
  all_goals try simp_all
  all_goals repeat' split
  all_goals try simp_all

theorem fill_keeps_base_fare (r : RawRow) (v : ℚ) (h : r.base_fare = some v) :
    (fillRowPricing r).base_fare = some v := by
  rw [fillRowPricing]
  repeat' split
  all_goals try simp_all
  all_goals repeat' split
  all_goals try simp_all

theorem fill_keeps_per_km_rate (r : RawRow) (v : ℚ) (h : r.per_km_rate = some v) :
    (fillRowPricing r).per_km_rate = some v := by
  rw [fillRowPricing]
  repeat' split
  all_goals try simp_all
  all_goals repeat' split
  all_goals try simp_all

theorem fill_keeps_per_minute_rate (r : RawRow) (v : ℚ)
    (h : r.per_minute_rate = some v) :
    (fillRowPricing r).per_minute_rate = some v := by
  rw [fillRowPricing]
  repeat' split
  all_goals try simp_all
  all_goals repeat' split
  all_goals try simp_all

theorem fill_keeps_trip_distance (r : RawRow) (v : ℚ)
    (h : r.trip_distance_km = some v) :
    (fillRowPricing r).trip_distance_km = some v := by
  rw [fillRowPricing]
  repeat' split
  all_goals try simp_all
  all_goals repeat' split
  all_goals try simp_all

theorem fill_keeps_trip_duration (r : RawRow) (v : ℚ)
    (h : r.trip_duration_minutes = some v) :
    (fillRowPricing r).trip_duration_minutes = some v := by
  rw [fillRowPricing]
  repeat' split
  all_goals try simp_all
  all_goals repeat' split
  all_goals try simp_all

theorem claim_C10 (r : RawRow) :
    ((fillRowPricing r).weather = r.weather ∧
     (fillRowPricing r).traffic_conditions = r.traffic_conditions ∧
     (fillRowPricing r).time_of_day = r.time_of_day ∧
     (fillRowPricing r).day_of_week = r.day_of_week ∧
     (fillRowPricing r).passenger_count = r.passenger_count) ∧
    (∀ v, r.trip_price = some v → (fillRowPricing r).trip_price = some v) ∧
    (∀ v, r.base_fare = some v → (fillRowPricing r).base_fare = some v) ∧
    (∀ v, r.per_km_rate = some v → (fillRowPricing r).per_km_rate = some v) ∧
    (∀ v, r.per_minute_rate = some v → (fillRowPricing r).per_minute_rate = some v) ∧
    (∀ v, r.trip_distance_km = some v → (fillRowPricing r).trip_distance_km = some v) ∧
    (∀ v, r.trip_duration_minutes = some v →
      (fillRowPricing r).trip_duration_minutes = some v) :=
  ⟨⟨fill_frame_weather r, fill_frame_traffic r, fill_frame_time_of_day r,
    fill_frame_day_of_week r, fill_frame_passenger_count r⟩,
   fill_keeps_trip_price r, fill_keeps_base_fare r, fill_keeps_per_km_rate r,
   fill_keeps_per_minute_rate r, fill_keeps_trip_distance r,
   fill_keeps_trip_duration r⟩

/-- Witness for C10: on the worked example row every present field keeps
its value. -/
theorem claim_C10_witness :
    (fillRowPricing exampleRowC8).base_fare = some 3 ∧
    (fillRowPricing exampleRowC8).trip_distance_km = some 10 :=
  ⟨(claim_C10 exampleRowC8).2.2.1 3 rfl,
   (claim_C10 exampleRowC8).2.2.2.2.2.1 10 rfl⟩

/-- An exactly-zero error is within the 1e-6 tolerance. -/
theorem abs_tol_of_zero {x : ℚ} (h : x = 0) : |x| ≤ 1 / 1000000 := by
  rw [h]
  norm_num

/-- C2 (amended): for a row entering the Pricing Recovery Engine with
exactly one missing pricing field which the engine fills, the forward
relation `trip_price = base_fare + distance*per_km_rate +
duration*per_minute_rate` holds on the output to within 1e-6 — except when
the filled field is `base_fare`, `per_km_rate` or `per_minute_rate` and its
computed value was negative, in which case the `max(0, ·)` clamp writes `0`
and the relation can fail. -/
theorem claim_C2 (r : RawRow) (h1 : pricingNulls r = 1)
    (h2 : newlyFilled r (fillRowPricing r) = 1) :
    |forwardGap (fillRowPricing r)| ≤ 1 / 1000000 ∨
      clampedFill r (fillRowPricing r) := by
  obtain ⟨tp, bf, km, pm, dist, dur, w, tc, tod, dow, pc⟩ := r
  rcases tp with - | p <;> rcases bf with - | b <;> rcases km with - | k <;>
    rcases pm with - | m <;> rcases dist with - | d <;> rcases dur with - | t <;>
    simp [pricingNulls] at h1
  -- trip_price was the missing field
  · exact Or.inl (abs_tol_of_zero (by simp [fillRowPricing, cell, forwardGap]; try ring))
  -- base_fare was the missing field
  · rcases le_or_lt 0 (p - d * k - t * m) with hc | hc
    · exact Or.inl (abs_tol_of_zero
        (by simp [fillRowPricing, cell, forwardGap, max_eq_right hc]; try ring))
    · exact Or.inr (Or.inl ⟨rfl,
        by simp [fillRowPricing, cell, max_eq_left hc.le]⟩)
  -- per_km_rate was the missing field
  · rcases le_or_lt d 0 with hd | hd
    · exfalso
      simp [fillRowPricing, cell, newlyFilled, not_lt.mpr hd] at h2
    · rcases le_or_lt 0 ((p - b - t * m) / d) with hq | hq
      · exact Or.inl (abs_tol_of_zero
          (by simp [fillRowPricing, cell, forwardGap, hd, max_eq_right hq]
              try field_simp
              try ring))
      · exact Or.inr (Or.inr (Or.inl ⟨rfl,
          by simp [fillRowPricing, cell, hd, max_eq_left hq.le]⟩))
  -- per_minute_rate was the missing field
  · rcases le_or_lt t 0 with ht | ht
    · exfalso
      simp [fillRowPricing, cell, newlyFilled, not_lt.mpr ht] at h2
    · rcases le_or_lt 0 ((p - b - d * k) / t) with hq | hq
      · exact Or.inl (abs_tol_of_zero
          (by simp [fillRowPricing, cell, forwardGap, ht, max_eq_right hq]
              try field_simp
              try ring))
      · exact Or.inr (Or.inr (Or.inr ⟨rfl,
          by simp [fillRowPricing, cell, ht, max_eq_left hq.le]⟩))
  -- trip_distance_km was the missing field
  · rcases eq_or_ne k 0 with hk | hk
    · exfalso
      simp [fillRowPricing, cell, newlyFilled, hk] at h2
    · rcases le_or_lt ((p - b - t * m) / k) 0 with hq | hq
      · exfalso
        simp [fillRowPricing, cell, newlyFilled, hk, not_lt.mpr hq] at h2
      · exact Or.inl (abs_tol_of_zero
          (by simp [fillRowPricing, cell, forwardGap, hk, hq]
              try field_simp
              try ring))
  -- trip_duration_minutes was the missing field
  · rcases eq_or_ne m 0 with hm | hm
    · exfalso
      simp [fillRowPricing, cell, newlyFilled, hm] at h2
    · rcases le_or_lt ((p - b - d * k) / m) 0 with hq | hq
      · exfalso
        simp [fillRowPricing, cell, newlyFilled, hm, not_lt.mpr hq] at h2
      · exact Or.inl (abs_tol_of_zero
          (by simp [fillRowPricing, cell, forwardGap, hm, hq]
              try field_simp
              try ring))
/-- C2 (counterexample): `clampRow` has exactly one missing pricing field
(`base_fare`), the engine fills it (with the clamped value `0` instead of
the computed `-4`), and the forward relation fails by `4`, far beyond the
`1e-6` tolerance — refuting the claim for the clamped case. -/
theorem claim_C2_counterexample :
    pricingNulls clampRow = 1 ∧
    newlyFilled clampRow (fillRowPricing clampRow) = 1 ∧
    ¬ |forwardGap (fillRowPricing clampRow)| ≤ 1 / 1000000 := by
  refine ⟨by decide, ?_, ?_⟩
  · norm_num [newlyFilled, fillRowPricing, cell, clampRow]
    simp
  · norm_num [forwardGap, fillRowPricing, cell, clampRow]

/-- Witness for C2 (amended) on the worked example row, whose missing
`trip_price` is filled unclamped. -/
theorem claim_C2_witness :
    |forwardGap (fillRowPricing exampleRowC8)| ≤ 1 / 1000000 ∨
      clampedFill exampleRowC8 (fillRowPricing exampleRowC8) :=
  claim_C2 exampleRowC8 (by decide)
    (by norm_num [newlyFilled, fillRowPricing, cell, exampleRowC8]
        simp)

/-- The hour binning takes one of exactly four values. -/
theorem timeOfDayFromHour_cases (h : ℕ) :
    timeOfDayFromHour h = "Morning" ∨ timeOfDayFromHour h = "Afternoon" ∨
    timeOfDayFromHour h = "Evening" ∨ timeOfDayFromHour h = "Night" := by
  rw [timeOfDayFromHour]
  repeat' split
  all_goals simp

/-- C1: for weather in {Clear, Rain, Snow}, traffic in {Low, Medium, High}
and a pickup timestamp represented by its hour and weekday index, the
bulk-cleaning feature engineer applied to the corresponding categorical
labels (hour binned by `timeOfDayFromHour`, weekday index > 4 mapped to
"Weekend") and the inference-time feature engineer compute identical
values for every engineered feature: weather_impact, traffic_multiplier,
is_morning_rush, is_evening_rush, is_peak_hours, is_weekend,
high_impact_trip, condition_score and distance_x_conditions. -/
theorem claim_C1 (d pc : ℚ) (hour wd : ℕ) (w t : String) (p : Option ℚ)
    (hw : w = "Clear" ∨ w = "Rain" ∨ w = "Snow")
    (ht : t = "Low" ∨ t = "Medium" ∨ t = "High") :
    ∃ f, engineerFeaturesFromInput d pc hour wd w t = .ok f ∧
      (engineerRow (bulkRow p d pc w t (timeOfDayFromHour hour)
        (if wd > 4 then "Weekend" else "Weekday"))).weather_impact = some f.weather_impact ∧
      (engineerRow (bulkRow p d pc w t (timeOfDayFromHour hour)
        (if wd > 4 then "Weekend" else "Weekday"))).traffic_multiplier = some f.traffic_multiplier ∧
      (engineerRow (bulkRow p d pc w t (timeOfDayFromHour hour)
        (if wd > 4 then "Weekend" else "Weekday"))).is_morning_rush = f.is_morning_rush ∧
      (engineerRow (bulkRow p d pc w t (timeOfDayFromHour hour)
        (if wd > 4 then "Weekend" else "Weekday"))).is_evening_rush = f.is_evening_rush ∧
      (engineerRow (bulkRow p d pc w t (timeOfDayFromHour hour)
        (if wd > 4 then "Weekend" else "Weekday"))).is_peak_hours = f.is_peak_hours ∧
      (engineerRow (bulkRow p d pc w t (timeOfDayFromHour hour)
        (if wd > 4 then "Weekend" else "Weekday"))).is_weekend = f.is_weekend ∧
      (engineerRow (bulkRow p d pc w t (timeOfDayFromHour hour)
        (if wd > 4 then "Weekend" else "Weekday"))).high_impact_trip = f.high_impact_trip ∧
      (engineerRow (bulkRow p d pc w t (timeOfDayFromHour hour)
        (if wd > 4 then "Weekend" else "Weekday"))).condition_score = some f.condition_score ∧
      (engineerRow (bulkRow p d pc w t (timeOfDayFromHour hour)
        (if wd > 4 then "Weekend" else "Weekday"))).distance_x_conditions = some f.distance_x_conditions := by
  rcases hw with rfl | rfl | rfl <;> rcases ht with rfl | rfl | rfl <;>
    rcases timeOfDayFromHour_cases hour with htod | htod | htod | htod <;>
    rcases lt_or_le 4 wd with hwd | hwd <;>
    simp [engineerFeaturesFromInput, engineerRow, bulkRow, weatherMap, trafficMap,
      omul, htod, hwd, Nat.not_lt.mpr hwd]


/-- Witness for C1 at a concrete trip: 10 km, 2 passengers, Wednesday
(weekday index 2) 08:00, Rain, Low traffic. -/
theorem claim_C1_witness :
    ∃ f, engineerFeaturesFromInput 10 2 8 2 "Rain" "Low" = .ok f ∧
      (engineerRow (bulkRow (some 19) 10 2 "Rain" "Low" (timeOfDayFromHour 8)
        (if 2 > 4 then "Weekend" else "Weekday"))).weather_impact = some f.weather_impact ∧
      (engineerRow (bulkRow (some 19) 10 2 "Rain" "Low" (timeOfDayFromHour 8)
        (if 2 > 4 then "Weekend" else "Weekday"))).traffic_multiplier = some f.traffic_multiplier ∧
      (engineerRow (bulkRow (some 19) 10 2 "Rain" "Low" (timeOfDayFromHour 8)
        (if 2 > 4 then "Weekend" else "Weekday"))).is_morning_rush = f.is_morning_rush ∧
      (engineerRow (bulkRow (some 19) 10 2 "Rain" "Low" (timeOfDayFromHour 8)
        (if 2 > 4 then "Weekend" else "Weekday"))).is_evening_rush = f.is_evening_rush ∧
      (engineerRow (bulkRow (some 19) 10 2 "Rain" "Low" (timeOfDayFromHour 8)
        (if 2 > 4 then "Weekend" else "Weekday"))).is_peak_hours = f.is_peak_hours ∧
      (engineerRow (bulkRow (some 19) 10 2 "Rain" "Low" (timeOfDayFromHour 8)
        (if 2 > 4 then "Weekend" else "Weekday"))).is_weekend = f.is_weekend ∧
      (engineerRow (bulkRow (some 19) 10 2 "Rain" "Low" (timeOfDayFromHour 8)
        (if 2 > 4 then "Weekend" else "Weekday"))).high_impact_trip = f.high_impact_trip ∧
      (engineerRow (bulkRow (some 19) 10 2 "Rain" "Low" (timeOfDayFromHour 8)
        (if 2 > 4 then "Weekend" else "Weekday"))).condition_score = some f.condition_score ∧
      (engineerRow (bulkRow (some 19) 10 2 "Rain" "Low" (timeOfDayFromHour 8)
        (if 2 > 4 then "Weekend" else "Weekday"))).distance_x_conditions = some f.distance_x_conditions :=
  claim_C1 10 2 8 2 "Rain" "Low" (some 19) (Or.inr (Or.inl rfl)) (Or.inl rfl)

/-- Membership after a single column assignment. -/
theorem mem_addColumn {c a : String} {acc : List String}
    (h : c ∈ addColumn acc a) : c ∈ acc ∨ c = a := by
  unfold addColumn at h
  split at h
  · exact Or.inl h
  · rcases List.mem_append.mp h with h' | h'
    · exact Or.inl h'
    · simp at h'
      exact Or.inr h'

/-- Membership after the Step 5 column assignments. -/
theorem mem_foldl_addColumn {c : String} : ∀ {l acc : List String},
    c ∈ l.foldl addColumn acc → c ∈ acc ∨ c ∈ l := by
  intro l
  induction l with
  | nil =>
    intro acc h
    exact Or.inl h
  | cons a l ih =>
    intro acc h
    rcases ih h with h' | h'
    · rcases mem_addColumn h' with h'' | h''
      · exact Or.inl h''
      · exact Or.inr (by simp [h''])
    · exact Or.inr (List.mem_cons_of_mem _ h')

/-- C7: whenever `clean_dataset` completes on an input header, the final
column set contains none of `base_fare`, `per_km_rate`, `per_minute_rate`,
`trip_duration_minutes` (dropped at Step 3, never re-added) and none of
`time_of_day`, `day_of_week`, `traffic_conditions`, `weather` (dropped at
Step 7). -/
theorem claim_C7 (cols out : List String)
    (h : cleanDatasetColumns cols = .ok out) (c : String)
    (hc : c ∈ pricingComponentCols ∨ c ∈ categoricalCols) : c ∉ out := by
  unfold cleanDatasetColumns dropColumnsStrict at h
  dsimp only at h
  split at h
  case h_1 =>
    exact absurd h (by simp)
  case h_2 x noLeak heq =>
    split at heq
    case isFalse =>
      exact absurd heq (by simp)
    case isTrue hall =>
      rw [Except.ok.injEq] at heq h
      subst h
      intro hmem
      rw [List.mem_filter] at hmem
      obtain ⟨hmem1, hmem2⟩ := hmem
      have hmem2' : c ∉ categoricalCols ∨
          c ∉ List.foldl addColumn noLeak engineeredCols := by
        simpa using hmem2
      rcases hc with hc | hc
      · rcases mem_foldl_addColumn hmem1 with h1 | h1
        · rw [← heq, List.mem_filter] at h1
          obtain ⟨-, h2⟩ := h1
          simp at h2
          exact h2 hc
        · simp only [pricingComponentCols, List.mem_cons, List.not_mem_nil,
            or_false] at hc
          rcases hc with rfl | rfl | rfl | rfl <;> simp [engineeredCols] at h1
      · rcases hmem2' with h2 | h2
        · exact h2 hc
        · exact h2 hmem1
/-- Witness for C7: on a representative raw header, the pipeline succeeds
and `base_fare` is not among the final columns. -/
theorem claim_C7_witness :
    "base_fare" ∉ ["trip_distance_km", "passenger_count", "trip_price",
      "weather_impact", "traffic_multiplier", "is_morning_rush",
      "is_evening_rush", "is_peak_hours", "is_weekend", "high_impact_trip",
      "condition_score", "distance_x_conditions"] :=
  claim_C7 rawColumns
    ["trip_distance_km", "passenger_count", "trip_price",
     "weather_impact", "traffic_multiplier", "is_morning_rush",
     "is_evening_rush", "is_peak_hours", "is_weekend", "high_impact_trip",
     "condition_score", "distance_x_conditions"]
    rfl "base_fare" (Or.inl (by decide))

end TaxiPred
